import Mathlib

/-
Verification of the VUTAX 2.0 repository: the training-orchestration core
(present in the repository only as documentation, hence modelled from the
spec), the alert service rate limiter (src/backend/api-gateway/src/services/
alertService.ts) and the discover-page stock filter
(src/frontend/src/components/discover/discover-page.tsx).
-/

namespace VUTAX

/-- Modelled from the spec: the two model types trained by the pipeline
(section 3, TrainingRun.modelType: analytical | chatbot). -/
inductive ModelType where
  | analytical
  | chatbot
deriving DecidableEq, Repr

/-- Modelled from the spec: the ModelArtifact record of section 3; the
training pipeline implementation is absent from the source (only its
documentation exists), so the record follows the spec field list.
Accuracy is a rational in [0,1]. -/
structure ModelArtifact where
  modelType : ModelType
  version : Nat
  trainedAt : Nat
  accuracy : ℚ
  parameters : List (String × ℚ)
  trainingRunId : Nat
deriving DecidableEq, Repr

/-- Modelled from the spec: the decision type of DeploymentGate
(section 4.5): Deploy | Reject. -/
inductive GateDecision where
  | Deploy
  | Reject
deriving DecidableEq, Repr

namespace DeploymentGate

/-- Modelled from the spec: the configurable accuracy threshold defaults
to 0.75 (section 4.5; min_accuracy_threshold = 0.75 in the docs). -/
def defaultThreshold : ℚ := 3 / 4

/-- Modelled from the spec: DeploymentGate.decide (section 4.5) deploys iff
candidate.accuracy ≥ threshold; with the documented default regression
tolerance (no regression allowed beyond 0) the candidate must be ≥ threshold
regardless of the current active model, so currentActive does not affect
the outcome. -/
def decide (candidate : ModelArtifact) (currentActive : Option ModelArtifact)
    (threshold : ℚ) : GateDecision :=
  if threshold ≤ candidate.accuracy then GateDecision.Deploy else GateDecision.Reject

end DeploymentGate

/-- Sample candidate artifact sitting exactly at the default threshold. -/
def boundaryArtifact : ModelArtifact :=
  { modelType := ModelType.analytical, version := 1, trainedAt := 0,
    accuracy := 3 / 4, parameters := [], trainingRunId := 0 }

/-- Sample candidate artifact a positive epsilon below the default threshold. -/
def belowArtifact : ModelArtifact :=
  { modelType := ModelType.analytical, version := 2, trainedAt := 0,
    accuracy := 1 / 2, parameters := [], trainingRunId := 1 }

/-- C1: DeploymentGate.decide returns Deploy iff candidate.accuracy ≥
threshold; in particular at the boundary accuracy = threshold it returns
Deploy, and at accuracy = threshold − ε for any ε > 0 it returns Reject,
for every candidate, current active model and threshold. -/
theorem deploymentGate_decide_iff (candidate : ModelArtifact)
    (currentActive : Option ModelArtifact) (threshold ε : ℚ) :
    (DeploymentGate.decide candidate currentActive threshold = GateDecision.Deploy ↔
      threshold ≤ candidate.accuracy) ∧
    (candidate.accuracy = threshold →
      DeploymentGate.decide candidate currentActive threshold = GateDecision.Deploy) ∧
    (0 < ε → candidate.accuracy = threshold - ε →
      DeploymentGate.decide candidate currentActive threshold = GateDecision.Reject) := by
  unfold DeploymentGate.decide
  by_cases h : threshold ≤ candidate.accuracy
  · refine ⟨by simp [h], fun _ => by simp [h], fun hε hacc => ?_⟩
    exfalso
    rw [hacc] at h
    linarith
  · refine ⟨by simp [h], fun hacc => ?_, fun _ _ => by simp [h]⟩
    exfalso
    exact h (le_of_eq hacc.symm)

/-- C1 witness: at the default threshold 0.75, a candidate with accuracy
exactly 0.75 is deployed and a candidate with accuracy 0.75 − 0.25 = 0.5
is rejected. -/
theorem deploymentGate_decide_iff_witness :
    DeploymentGate.decide boundaryArtifact none (3 / 4) = GateDecision.Deploy ∧
    DeploymentGate.decide belowArtifact none (3 / 4) = GateDecision.Reject :=
  ⟨(deploymentGate_decide_iff boundaryArtifact none (3 / 4) 1).2.1 rfl,
   (deploymentGate_decide_iff belowArtifact none (3 / 4) (1 / 4)).2.2
     (by norm_num) (by norm_num [belowArtifact])⟩

/-- Modelled from the spec: the stages of a TrainingRun (section 4.6):
Idle → Collecting → EngineeringFeatures → Training → Validating →
Deploying → Completed, with the terminal Failed and Cancelled states. -/
inductive Stage where
  | idle
  | collecting
  | engineeringFeatures
  | training
  | validating
  | deploying
  | completed
  | failed
  | cancelled
deriving DecidableEq, Repr

/-- Modelled from the spec: a run is terminal on completed/failed/cancelled
(section 3, TrainingRun lifecycle). -/
def Stage.isTerminal : Stage → Bool
  | Stage.completed => true
  | Stage.failed => true
  | Stage.cancelled => true
  | _ => false

/-- Position of a stage along the main pipeline order, with the two
off-path terminal stages placed after Completed. -/
def stageOrder : Stage → Nat
  | Stage.idle => 0
  | Stage.collecting => 1
  | Stage.engineeringFeatures => 2
  | Stage.training => 3
  | Stage.validating => 4
  | Stage.deploying => 5
  | Stage.completed => 6
  | Stage.failed => 7
  | Stage.cancelled => 8

/-- Modelled from the spec: the successor stage along the strictly
sequential pipeline (section 4.6); terminal stages have no successor. -/
def nextStage : Stage → Option Stage
  | Stage.idle => some Stage.collecting
  | Stage.collecting => some Stage.engineeringFeatures
  | Stage.engineeringFeatures => some Stage.training
  | Stage.training => some Stage.validating
  | Stage.validating => some Stage.deploying
  | Stage.deploying => some Stage.completed
  | _ => none

/-- Modelled from the spec: the three events that move a run between
stages — normal advancement, failure in the current stage, and external
cancellation (section 4.6). -/
inductive RunEvent where
  | advance
  | fail
  | cancel
deriving DecidableEq, Repr

/-- Modelled from the spec: the single-step transition function of the
TrainingOrchestrator state machine (section 4.6). Advancement moves to the
unique next stage; failure and cancellation move any non-terminal stage to
Failed respectively Cancelled; terminal stages have no transitions. -/
def stepStage (s : Stage) : RunEvent → Option Stage
  | RunEvent.advance => if s.isTerminal then none else nextStage s
  | RunEvent.fail => if s.isTerminal then none else some Stage.failed
  | RunEvent.cancel => if s.isTerminal then none else some Stage.cancelled

/-- C8: the orchestrator state machine advances strictly in the order
Idle, Collecting, EngineeringFeatures, Training, Validating, Deploying,
Completed — every advance step goes to the unique successor, so no stage is
skipped or reordered — and Failed and Cancelled are reachable only from
non-terminal states, which also have all outgoing transitions. -/
theorem stepStage_sequential (s t : Stage) (e : RunEvent)
    (h : stepStage s e = some t) :
    s.isTerminal = false ∧
    (e = RunEvent.advance → nextStage s = some t ∧ stageOrder t = stageOrder s + 1) ∧
    (t = Stage.failed → e = RunEvent.fail) ∧
    (t = Stage.cancelled → e = RunEvent.cancel) := by
  cases s <;> cases e <;>
    simp_all [stepStage, nextStage, Stage.isTerminal, stageOrder] <;>
    simp [← h, stageOrder]

/-- C8 witness: from Collecting, an advance step reaches exactly
EngineeringFeatures, one position further along the pipeline. -/
theorem stepStage_sequential_witness :
    Stage.collecting.isTerminal = false ∧
    nextStage Stage.collecting = some Stage.engineeringFeatures ∧
    stageOrder Stage.engineeringFeatures = stageOrder Stage.collecting + 1 := by
  have h := stepStage_sequential Stage.collecting Stage.engineeringFeatures
    RunEvent.advance (by decide)
  exact ⟨h.1, (h.2.1 rfl).1, (h.2.1 rfl).2⟩

/-- Modelled from the spec: the TrainingRun record (section 3): id,
modelType, startedAt, current stage, progressPercent and ordered logs. -/
structure TrainingRun where
  id : Nat
  modelType : ModelType
  startedAt : Nat
  stage : Stage
  progressPercent : ℚ
  logs : List String
deriving DecidableEq, Repr

/-- Modelled from the spec: exactly one active ModelArtifact reference per
modelType (section 3 and section 9, single-writer reference cell per
modelType). -/
structure ActiveModels where
  analytical : Option ModelArtifact
  chatbot : Option ModelArtifact
deriving DecidableEq, Repr

/-- Read the active artifact reference for a model type. -/
def ActiveModels.get (a : ActiveModels) : ModelType → Option ModelArtifact
  | ModelType.analytical => a.analytical
  | ModelType.chatbot => a.chatbot

/-- Swap the active artifact reference for a model type. -/
def ActiveModels.set (a : ActiveModels) : ModelType → ModelArtifact → ActiveModels
  | ModelType.analytical, m => { a with analytical := some m }
  | ModelType.chatbot, m => { a with chatbot := some m }

/-- Modelled from the spec: the orchestrator-visible state — the list of
training runs, the per-type active model references, and the id counter
for fresh runs (sections 3, 4.6 and 6). -/
structure OrchState where
  runs : List TrainingRun
  active : ActiveModels
  nextId : Nat
deriving DecidableEq, Repr

/-- Modelled from the spec: the error taxonomy of section 7 (the members
the verified operations can return). -/
inductive OrchError where
  | AlreadyRunning
  | DataUnavailable
  | RateLimited
  | InsufficientData
deriving DecidableEq, Repr

/-- Modelled from the spec: whether some run of the given model type is in
a non-terminal state (section 4.6, mutual exclusion per model type). -/
def hasActiveRun (s : OrchState) (mt : ModelType) : Bool :=
  s.runs.any fun r => decide (r.modelType = mt) && !r.stage.isTerminal

/-- Number of non-terminal runs of the given model type. -/
def nonTerminalCount (s : OrchState) (mt : ModelType) : Nat :=
  (s.runs.filter fun r => decide (r.modelType = mt) && !r.stage.isTerminal).length

/-- Modelled from the spec: triggerTraining(modelType) (section 6) —
fails with AlreadyRunning when a non-terminal run of that model type
exists, leaving the state untouched, and otherwise creates a fresh run in
the Collecting stage and returns its id. -/
def triggerTraining (s : OrchState) (mt : ModelType) (now : Nat) :
    Except OrchError Nat × OrchState :=
  if hasActiveRun s mt then
    (Except.error OrchError.AlreadyRunning, s)
  else
    (Except.ok s.nextId,
      { runs := { id := s.nextId, modelType := mt, startedAt := now,
                  stage := Stage.collecting, progressPercent := 0,
                  logs := [] } :: s.runs,
        active := s.active,
        nextId := s.nextId + 1 })

/-- Modelled from the spec: failure in any stage marks the run Failed and
preserves its logs, appending the failure message; the active model
references are untouched (sections 4.6 and 7). -/
def failRun (s : OrchState) (runId : Nat) (msg : String) : OrchState :=
  { s with runs := s.runs.map fun r =>
      if r.id = runId ∧ r.stage.isTerminal = false then
        { r with stage := Stage.failed, logs := r.logs ++ [msg] }
      else r }

/-- Modelled from the spec: cooperative cancellation marks the run
Cancelled, preserving logs and never touching the active model references
(sections 5 and 4.6). -/
def cancelRun (s : OrchState) (runId : Nat) (msg : String) : OrchState :=
  { s with runs := s.runs.map fun r =>
      if r.id = runId ∧ r.stage.isTerminal = false then
        { r with stage := Stage.cancelled, logs := r.logs ++ [msg] }
      else r }

/-- Modelled from the spec: the final Deploying step — the run completes,
and the active reference for the model type of the candidate is swapped iff the
DeploymentGate decides Deploy (sections 4.5 and 4.6). -/
def completeDeploy (s : OrchState) (runId : Nat) (candidate : ModelArtifact)
    (threshold : ℚ) : OrchState :=
  let finished := s.runs.map fun r =>
    if r.id = runId ∧ r.stage.isTerminal = false then
      { r with stage := Stage.completed, progressPercent := 100 }
    else r
  match DeploymentGate.decide candidate (s.active.get candidate.modelType) threshold with
  | GateDecision.Deploy =>
      { s with runs := finished, active := s.active.set candidate.modelType candidate }
  | GateDecision.Reject => { s with runs := finished }

/-- C2 theorem: calling triggerTraining while a non-terminal run of the
same model type exists fails with AlreadyRunning and returns the state
unchanged, so no second non-terminal run is created and at most one run
per model type is non-terminal at a time. -/
theorem triggerTraining_mutual_exclusion (s : OrchState) (mt : ModelType) (now : Nat)
    (h : hasActiveRun s mt = true) :
    (triggerTraining s mt now).1 = Except.error OrchError.AlreadyRunning ∧
    (triggerTraining s mt now).2 = s ∧
    nonTerminalCount (triggerTraining s mt now).2 mt = nonTerminalCount s mt := by
  unfold triggerTraining
  simp [h]

/-- A concrete non-terminal analytical training run. -/
def run0 : TrainingRun :=
  { id := 0, modelType := ModelType.analytical, startedAt := 0,
    stage := Stage.collecting, progressPercent := 0, logs := [] }

/-- A concrete orchestrator state with one non-terminal analytical run. -/
def busyState : OrchState :=
  { runs := [run0],
    active := { analytical := none, chatbot := none },
    nextId := 1 }

/-- C2 witness: with a Collecting analytical run already present, a second
trigger for the analytical model returns AlreadyRunning and leaves the
state unchanged. -/
theorem triggerTraining_mutual_exclusion_witness :
    (triggerTraining busyState ModelType.analytical 5).1 =
      Except.error OrchError.AlreadyRunning ∧
    (triggerTraining busyState ModelType.analytical 5).2 = busyState := by
  have h := triggerTraining_mutual_exclusion busyState ModelType.analytical 5 (by decide)
  exact ⟨h.1, h.2.1⟩

/-- C3 theorem: failing or cancelling a run never changes any active model
reference; a rejected DeploymentGate decision does not change it either;
and the targeted non-terminal run itself moves to the Failed
(respectively Cancelled) terminal stage with its logs preserved. -/
theorem failRun_preserves_active (s : OrchState) (runId : Nat) (msg : String) :
    (failRun s runId msg).active = s.active ∧
    (cancelRun s runId msg).active = s.active ∧
    (∀ candidate threshold,
      DeploymentGate.decide candidate (s.active.get candidate.modelType) threshold =
        GateDecision.Reject →
      (completeDeploy s runId candidate threshold).active = s.active) ∧
    (∀ r ∈ s.runs, r.id = runId → r.stage.isTerminal = false →
      { r with stage := Stage.failed, logs := r.logs ++ [msg] } ∈ (failRun s runId msg).runs ∧
      { r with stage := Stage.cancelled, logs := r.logs ++ [msg] } ∈ (cancelRun s runId msg).runs) := by
  refine ⟨rfl, rfl, fun candidate threshold hrej => ?_, fun r hr hid hnt => ?_⟩
  · unfold completeDeploy
    rw [hrej]
  · constructor
    · exact List.mem_map.mpr ⟨r, hr, by simp [hid, hnt]⟩
    · exact List.mem_map.mpr ⟨r, hr, by simp [hid, hnt]⟩

/-- C3 witness: failing the Collecting run of the concrete busy state
leaves the active references unchanged and moves that run to Failed with
its logs preserved. -/
theorem failRun_preserves_active_witness :
    (failRun busyState 0 "provider down").active = busyState.active ∧
    ({ run0 with stage := Stage.failed, logs := run0.logs ++ ["provider down"] }) ∈
      (failRun busyState 0 "provider down").runs := by
  have h := failRun_preserves_active busyState 0 "provider down"
  exact ⟨h.1, (h.2.2.2 run0 (by simp [busyState]) rfl rfl).1⟩

/-- Modelled from the spec: the lower bound of each progress band per stage
in the fixed per-stage weight table (Collecting 0–30, EngineeringFeatures
30–50, Training 50–80, Validating 80–90, Deploying 90–100); terminal
stages sit at 100 except Idle at 0. -/
def stageBase : Stage → ℚ
  | Stage.idle => 0
  | Stage.collecting => 0
  | Stage.engineeringFeatures => 30
  | Stage.training => 50
  | Stage.validating => 80
  | Stage.deploying => 90
  | Stage.completed => 100
  | Stage.failed => 100
  | Stage.cancelled => 100

/-- Modelled from the spec: the width of each progress band per stage in the
fixed per-stage weight table. -/
def stageWidth : Stage → ℚ
  | Stage.idle => 0
  | Stage.collecting => 30
  | Stage.engineeringFeatures => 20
  | Stage.training => 30
  | Stage.validating => 10
  | Stage.deploying => 10
  | _ => 0

/-- Modelled from the spec: progressPercent is the per-stage band lower
bound plus the band width scaled by the intra-stage fractional completion
(section 4.6). -/
def progressOf (s : Stage) (frac : ℚ) : ℚ :=
  stageBase s + stageWidth s * frac

/-- C7: within a single TrainingRun, progressPercent computed from the
fixed per-stage weight table scaled by intra-stage fractional completion
is non-decreasing over time: any later measurement — a strictly later
stage, or the same stage with an equal-or-larger completion fraction —
yields an equal-or-larger percentage, as long as no terminal state has
been reached and fractions lie in [0,1]. -/
theorem progressOf_monotone (s₁ s₂ : Stage) (f₁ f₂ : ℚ)
    (h₁ : s₁.isTerminal = false) (h₂ : s₂.isTerminal = false)
    (hf₁0 : 0 ≤ f₁) (hf₁1 : f₁ ≤ 1) (hf₂0 : 0 ≤ f₂) (hf₂1 : f₂ ≤ 1)
    (hord : stageOrder s₁ < stageOrder s₂ ∨ (s₁ = s₂ ∧ f₁ ≤ f₂)) :
    progressOf s₁ f₁ ≤ progressOf s₂ f₂ := by
  cases s₁ <;> cases s₂ <;>
    simp_all [progressOf, stageBase, stageWidth, stageOrder, Stage.isTerminal] <;>
    linarith

/-- C7 witness: half-way through Collecting (15%) is no further along than
the start of Training (50%). -/
theorem progressOf_monotone_witness :
    progressOf Stage.collecting (1 / 2) ≤ progressOf Stage.training 0 :=
  progressOf_monotone Stage.collecting Stage.training (1 / 2) 0 rfl rfl
    (by norm_num) (by norm_num) le_rfl zero_le_one (Or.inl (by decide))

/-- Modelled from the spec: the Observation record (section 3): symbol,
timestamp and OHLCV values. The price field named open in the spec is
openPrice here because open is a reserved word. -/
structure Observation where
  symbol : String
  timestamp : Nat
  openPrice : ℚ
  high : ℚ
  low : ℚ
  close : ℚ
  volume : ℚ
deriving DecidableEq, Repr

/-- Modelled from the spec: the per-symbol successes of a collection
batch — symbols whose fetch failed are excluded, the rest keep their
observation sequences (section 4.1, tolerate per-symbol failure). The
external provider is abstracted as a function returning none on a failed
fetch. -/
def collectSuccesses (symbols : List String)
    (fetch : String → Option (List Observation)) : List (String × List Observation) :=
  symbols.filterMap fun sym => (fetch sym).map fun obs => (sym, obs)

/-- Modelled from the spec: collect(symbols, window) (sections 4.1 and 7) —
per-symbol failures are excluded and the batch succeeds with the
remaining symbols, unless strictly fewer than 50% of the requested
symbols succeed, in which case the whole run fails with DataUnavailable. -/
def collect (symbols : List String)
    (fetch : String → Option (List Observation)) :
    Except OrchError (List (String × List Observation)) :=
  if 2 * (collectSuccesses symbols fetch).length < symbols.length then
    Except.error OrchError.DataUnavailable
  else
    Except.ok (collectSuccesses symbols fetch)

/-- C4 theorem: per-symbol fetch failures are recovered locally — the
batch result keeps exactly the successfully fetched symbols — and collect
fails with DataUnavailable precisely when strictly fewer than 50% of the
requested symbols succeed, otherwise succeeding with the successful
symbols only. -/
theorem collect_partial_failure (symbols : List String)
    (fetch : String → Option (List Observation)) :
    (2 * (collectSuccesses symbols fetch).length < symbols.length →
      collect symbols fetch = Except.error OrchError.DataUnavailable) ∧
    (symbols.length ≤ 2 * (collectSuccesses symbols fetch).length →
      collect symbols fetch = Except.ok (collectSuccesses symbols fetch)) ∧
    (∀ p ∈ collectSuccesses symbols fetch, fetch p.1 = some p.2) := by
  refine ⟨fun hlt => ?_, fun hge => ?_, fun p hp => ?_⟩
  · unfold collect
    rw [if_pos hlt]
  · unfold collect
    rw [if_neg (Nat.not_lt.mpr hge)]
  · rcases List.mem_filterMap.mp hp with ⟨a, _, hfa⟩
    cases hf : fetch a with
    | none => rw [hf] at hfa; simp at hfa
    | some obs =>
        rw [hf] at hfa
        obtain rfl : (a, obs) = p := by simpa using hfa
        simp [hf]

/-- A ten-symbol request universe used to exercise the coverage rule. -/
def symbols10 : List String :=
  ["AAPL", "MSFT", "GOOGL", "AMZN", "TSLA", "META", "NVDA", "JPM", "V", "WMT"]

/-- A one-row observation history for a symbol. -/
def obsRow (sym : String) : Observation :=
  { symbol := sym, timestamp := 1, openPrice := 1, high := 1, low := 1,
    close := 1, volume := 1 }

/-- A provider for which exactly 3 of the 10 requested symbols fail. -/
def fetchDrop3 (sym : String) : Option (List Observation) :=
  if sym = "TSLA" ∨ sym = "META" ∨ sym = "NVDA" then none else some [obsRow sym]

/-- A provider for which exactly 8 of the 10 requested symbols fail. -/
def fetchDrop8 (sym : String) : Option (List Observation) :=
  if sym = "AAPL" ∨ sym = "MSFT" then some [obsRow sym] else none

/-- C4 witness: with 10 requested symbols and 3 failures, Collecting
succeeds with the 7 surviving observation sets; with 8 failures out of 10
(below 50% coverage) the run fails with DataUnavailable. -/
theorem collect_partial_failure_witness :
    collect symbols10 fetchDrop3 = Except.ok (collectSuccesses symbols10 fetchDrop3) ∧
    (collectSuccesses symbols10 fetchDrop3).length = 7 ∧
    collect symbols10 fetchDrop8 = Except.error OrchError.DataUnavailable :=
  ⟨(collect_partial_failure symbols10 fetchDrop3).2.1 (by decide), by decide,
   (collect_partial_failure symbols10 fetchDrop8).1 (by decide)⟩

/-- Modelled from the spec: the FeatureVector record (section 3): symbol,
timestamp, the ordered numeric feature fields, and an optional label
(present on training rows only). -/
structure FeatureVector where
  symbol : String
  timestamp : Nat
  features : List ℚ
  label : Option ℚ
deriving DecidableEq, Repr

/-- Chronological order on feature vectors: earlier timestamp first. -/
def byTime (a b : FeatureVector) : Prop := a.timestamp ≤ b.timestamp

instance : DecidableRel byTime := fun a b => Nat.decLe a.timestamp b.timestamp

instance : IsTotal FeatureVector byTime := ⟨fun a b => Nat.le_total a.timestamp b.timestamp⟩

instance : IsTrans FeatureVector byTime := ⟨fun _ _ _ hab hbc => Nat.le_trans hab hbc⟩

namespace ModelTrainer

/-- Modelled from the spec: the chronological train/validation split used
by ModelTrainer.train (section 4.3) — rows are ordered by timestamp and
the validation set is the final (most recent) slice, its size the floor
of validationSplit times the row count (computed on the normalized
fraction as num·n / den); the training set is everything before it. -/
def trainSplit (rows : List FeatureVector) (validationSplit : ℚ) :
    List FeatureVector × List FeatureVector :=
  ((List.insertionSort byTime rows).take
      ((List.insertionSort byTime rows).length -
        validationSplit.num.toNat * rows.length / validationSplit.den),
   (List.insertionSort byTime rows).drop
      ((List.insertionSort byTime rows).length -
        validationSplit.num.toNat * rows.length / validationSplit.den))

/-- Modelled from the spec: ModelTrainer.train (section 4.3) — fails with
InsufficientData below the minimum sample count, and otherwise fits on
the chronological split, recording the fixed random seed in the
artifact parameters. The learning algorithm itself is abstracted as the
function fit from seed, training slice and validation slice to the
measured accuracy; train also returns the split it fitted on. -/
def train (mt : ModelType) (rows : List FeatureVector) (validationSplit : ℚ)
    (seed : Nat) (minSamples : Nat)
    (fit : Nat → List FeatureVector → List FeatureVector → ℚ)
    (version now runId : Nat) :
    Except OrchError (ModelArtifact × (List FeatureVector × List FeatureVector)) :=
  if rows.length < minSamples then
    Except.error OrchError.InsufficientData
  else
    Except.ok
      ({ modelType := mt, version := version, trainedAt := now,
         accuracy := fit seed (trainSplit rows validationSplit).1
           (trainSplit rows validationSplit).2,
         parameters := [("seed", (seed : ℚ))],
         trainingRunId := runId },
       trainSplit rows validationSplit)

end ModelTrainer

/-- Every row of the training slice of a chronological split is no later
than every row of the validation slice. -/
theorem trainSplit_le (rows : List FeatureVector) (validationSplit : ℚ)
    (a b : FeatureVector)
    (ha : a ∈ (ModelTrainer.trainSplit rows validationSplit).1)
    (hb : b ∈ (ModelTrainer.trainSplit rows validationSplit).2) :
    a.timestamp ≤ b.timestamp := by
  have hs : List.Sorted byTime (List.insertionSort byTime rows) :=
    List.sorted_insertionSort byTime rows
  rw [← List.take_append_drop
    ((List.insertionSort byTime rows).length -
      validationSplit.num.toNat * rows.length / validationSplit.den)
    (List.insertionSort byTime rows)] at hs
  exact (List.pairwise_append.mp hs).2.2 a ha b hb

/-- C5 theorem: every split produced by a successful ModelTrainer.train is
chronological rather than random — the timestamp of each validation row is at
least the timestamp of each training row, so the validation slice is the most
recent slice. -/
theorem train_split_chronological (mt : ModelType) (rows : List FeatureVector)
    (validationSplit : ℚ) (seed minSamples : Nat)
    (fit : Nat → List FeatureVector → List FeatureVector → ℚ)
    (version now runId : Nat) (artifact : ModelArtifact)
    (split : List FeatureVector × List FeatureVector)
    (h : ModelTrainer.train mt rows validationSplit seed minSamples fit version now runId =
      Except.ok (artifact, split))
    (a b : FeatureVector) (ha : a ∈ split.1) (hb : b ∈ split.2) :
    a.timestamp ≤ b.timestamp := by
  unfold ModelTrainer.train at h
  by_cases hlen : rows.length < minSamples
  · rw [if_pos hlen] at h
    exact absurd h (by simp)
  · rw [if_neg hlen] at h
    have hsplit : split = ModelTrainer.trainSplit rows validationSplit :=
      ((Prod.mk.injEq _ _ _ _).mp (Except.ok.inj h).symm).2
    rw [hsplit] at ha hb
    exact trainSplit_le rows validationSplit a b ha hb

/-- A feature row at a given timestamp. -/
def fvec (t : Nat) : FeatureVector :=
  { symbol := "AAPL", timestamp := t, features := [], label := none }

/-- The fraction 1/2, given by its normal form so that projections
reduce. -/
def halfSplit : ℚ := Rat.mk' 1 2 (by decide) (Nat.coprime_one_left 2)

/-- C5 witness: training two rows with timestamps 3 and 5 under a 50%
validation split puts the later row alone in the validation slice, and
the theorem yields 3 ≤ 5 for the concrete successful run. -/
theorem train_split_chronological_witness : (fvec 3).timestamp ≤ (fvec 5).timestamp :=
  train_split_chronological ModelType.analytical [fvec 5, fvec 3] halfSplit 42 1
    (fun _ _ _ => 0) 1 0 0
    { modelType := ModelType.analytical, version := 1, trainedAt := 0,
      accuracy := 0, parameters := [("seed", (42 : ℚ))], trainingRunId := 0 }
    ([fvec 3], [fvec 5]) rfl (fvec 3) (fvec 5) (by decide) (by decide)

/-- All contiguous observation windows of length w, one per valid window
position, in positional order. -/
def windows (w : Nat) : List Observation → List (List Observation)
  | [] => []
  | o :: rest =>
      if 0 < w ∧ w ≤ (o :: rest).length then
        (o :: rest).take w :: windows w rest
      else []

/-- Shorter lists than the window size have no valid window position. -/
theorem windows_nil_of_short (w : Nat) (obs : List Observation)
    (h : obs.length < w) : windows w obs = [] := by
  cases obs with
  | nil => rfl
  | cons o rest =>
      unfold windows
      rw [if_neg]
      intro hc
      exact absurd hc.2 (Nat.not_le.mpr h)

/-- A list of length at least w ≥ 1 has exactly length + 1 − w window
positions. -/
theorem windows_length (w : Nat) (obs : List Observation)
    (hw : 0 < w) (hle : w ≤ obs.length) :
    (windows w obs).length = obs.length + 1 - w := by
  induction obs with
  | nil => exact absurd (Nat.lt_of_lt_of_le hw hle) (Nat.lt_irrefl 0)
  | cons o rest ih =>
      unfold windows
      rw [if_pos ⟨hw, hle⟩]
      by_cases hr : w ≤ rest.length
      · rw [List.length_cons, ih hr]
        simp only [List.length_cons]
        omega
      · rw [List.length_cons, windows_nil_of_short w rest (Nat.not_le.mp hr)]
        simp only [List.length_nil, List.length_cons]
        have : w = rest.length + 1 := Nat.le_antisymm hle (Nat.not_le.mp hr)
        omega

/-- Arithmetic mean of a list of rationals (0 on the empty list, since
division by zero is zero in ℚ). -/
def meanOf (xs : List ℚ) : ℚ := xs.sum / xs.length

/-- Modelled from the spec: the numeric features derived from one
observation window (section 4.2) — representatives of the feature
families (momentum, moving average, volatility range, relative volume,
calendar position), each degrading to the default 0 when the window gives
it no data, and calendar features derived from the row timestamp, never
from the wall clock. -/
def featureOf (win : List Observation) : FeatureVector :=
  { symbol := (win.head?.map Observation.symbol).getD "",
    timestamp := (win.getLast?.map Observation.timestamp).getD 0,
    features :=
      [ (win.getLast?.map Observation.close).getD 0 -
          (win.head?.map Observation.close).getD 0,
        meanOf (win.map Observation.close),
        (win.map Observation.high).foldr max 0 -
          (win.map Observation.low).foldr min 0,
        (win.getLast?.map Observation.volume).getD 0 /
          meanOf (win.map Observation.volume),
        (((win.getLast?.map Observation.timestamp).getD 0) % 7 : Nat) ],
    label := none }

/-- Modelled from the spec: computeFeatures(observations, windowSize)
(section 4.2) — one FeatureVector per valid window position, derived from
the window alone. The parameter now stands for the wall-clock instant at
which the invocation happens; the determinism invariant of the spec says the
numeric results never depend on it. -/
def computeFeatures (now : Nat) (observations : List Observation)
    (windowSize : Nat) : List FeatureVector :=
  (windows windowSize observations).map featureOf

/-- C6: computeFeatures is a deterministic pure function of its
observation window: invocations at any two wall-clock instants yield
identical FeatureVectors, and the output is the finite sequence of one
vector per valid window position. -/
theorem computeFeatures_deterministic (t₁ t₂ : Nat) (observations : List Observation)
    (windowSize : Nat) (hw : 0 < windowSize) (hle : windowSize ≤ observations.length) :
    computeFeatures t₁ observations windowSize =
      computeFeatures t₂ observations windowSize ∧
    (computeFeatures t₁ observations windowSize).length =
      observations.length + 1 - windowSize := by
  constructor
  · rfl
  · unfold computeFeatures
    rw [List.length_map]
    exact windows_length windowSize observations hw hle

/-- Three consecutive one-symbol observations. -/
def obsSeq3 : List Observation :=
  [{ symbol := "AAPL", timestamp := 1, openPrice := 10, high := 12, low := 9,
     close := 11, volume := 100 },
   { symbol := "AAPL", timestamp := 2, openPrice := 11, high := 13, low := 10,
     close := 12, volume := 110 },
   { symbol := "AAPL", timestamp := 3, openPrice := 12, high := 14, low := 11,
     close := 13, volume := 120 }]

/-- C6 witness: on a concrete 3-observation window history with window
size 2, invocations at wall-clock instants 0 and 999 agree and produce
exactly 2 feature vectors. -/
theorem computeFeatures_deterministic_witness :
    computeFeatures 0 obsSeq3 2 = computeFeatures 999 obsSeq3 2 ∧
    (computeFeatures 0 obsSeq3 2).length = obsSeq3.length + 1 - 2 :=
  computeFeatures_deterministic 0 999 obsSeq3 2 (by decide) (by decide)

/-- State of the Redis keys that AlertService.sendEmailAlert consults for
one recipient (src/backend/api-gateway/src/services/alertService.ts):
the value under notifications:to, the counter under email_rate_limit:to
(absent when the key has expired or was never set), and the remaining
expiry set on that counter. -/
structure AlertState where
  notificationsValue : Option String
  rateCount : Option Nat
  ttlSeconds : Option Nat
deriving DecidableEq, Repr

/-- The stored rate-limit counter, reading an absent key as 0. -/
def rateOf (s : AlertState) : Nat := s.rateCount.getD 0

/-- AlertService.sendEmailAlert (alertService.ts lines 51–94) for one
recipient: skip when notifications are disabled; return without sending
when the stored counter exists and is ≥ 10; otherwise attempt the send
(providerOk tells whether resend.emails.send succeeded — on failure the
method throws before touching the counter), and after a successful send
incr the counter (1 when the key was absent) and set a 3600-second
expiry. The returned Bool says whether an email went out. -/
def sendEmailAlert (s : AlertState) (providerOk : Bool) : Bool × AlertState :=
  if s.notificationsValue = some "false" then (false, s)
  else
    match s.rateCount with
    | some c =>
        if 10 ≤ c then (false, s)
        else if providerOk then
          (true, { s with rateCount := some (c + 1), ttlSeconds := some 3600 })
        else (false, s)
    | none =>
        if providerOk then
          (true, { s with rateCount := some 1, ttlSeconds := some 3600 })
        else (false, s)

/-- Number of emails sent over a sequence of sendEmailAlert calls to the
same recipient, threading the Redis state; the counter key does not
expire during the sequence (it lives 3600 seconds past the last send). -/
def runAlerts (s : AlertState) : List Bool → Nat
  | [] => 0
  | ok :: rest =>
      (sendEmailAlert s ok).1.toNat + runAlerts (sendEmailAlert s ok).2 rest

/-- A call that sends no email leaves the Redis state untouched. -/
theorem sendEmailAlert_not_sent (s : AlertState) (ok : Bool)
    (h : (sendEmailAlert s ok).1 = false) : (sendEmailAlert s ok).2 = s := by
  unfold sendEmailAlert at h ⊢
  by_cases hn : s.notificationsValue = some "false"
  · simp [hn]
  · cases hc : s.rateCount with
    | none => cases ok <;> simp_all
    | some c =>
        by_cases h10 : 10 ≤ c
        · simp [hn, hc, h10]
        · cases ok
          · simp [hn, hc, h10]
          · simp [hn, hc, h10] at h

/-- A call that sends an email implies the counter was below the cap, and
afterwards the counter is one higher with a one-hour expiry. -/
theorem sendEmailAlert_sent (s : AlertState) (ok : Bool)
    (h : (sendEmailAlert s ok).1 = true) :
    rateOf s < 10 ∧
    (sendEmailAlert s ok).2.rateCount = some (rateOf s + 1) ∧
    (sendEmailAlert s ok).2.ttlSeconds = some 3600 := by
  unfold sendEmailAlert at h ⊢
  by_cases hn : s.notificationsValue = some "false"
  · simp [hn] at h
  · cases hc : s.rateCount with
    | none => cases ok <;> simp_all [rateOf]
    | some c =>
        by_cases h10 : 10 ≤ c
        · simp [hn, hc, h10] at h
        · cases ok
          · simp [hn, hc, h10] at h
          · simp only [hn, hc, if_neg h10, if_true, if_false, ite_false, ite_true] at h ⊢
            simp [h10, rateOf, hc]
            omega

/-- C9: sendEmailAlert enforces the per-recipient hourly cap: with a
stored counter of 10 or more the call returns without sending and without
changing the state; every successful send increments the counter and sets
a 3600-second expiry; and any sequence of calls within the lifetime of
the counter key sends at most 10 − min(counter, 10) emails — at most 10
per recipient within one hour. -/
theorem sendEmailAlert_rate_limited (s : AlertState) (ok : Bool)
    (oks : List Bool) (c : Nat) :
    (s.rateCount = some c → 10 ≤ c → sendEmailAlert s ok = (false, s)) ∧
    (∀ s₂ : AlertState, sendEmailAlert s ok = (true, s₂) →
      s₂.rateCount = some (rateOf s + 1) ∧ s₂.ttlSeconds = some 3600) ∧
    runAlerts s oks ≤ 10 - min (rateOf s) 10 := by
  refine ⟨fun hc h10 => ?_, fun s₂ h => ?_, ?_⟩
  · unfold sendEmailAlert
    by_cases hn : s.notificationsValue = some "false"
    · simp [hn]
    · simp [hn, hc, h10]
  · have hsent : (sendEmailAlert s ok).1 = true := by rw [h]
    have h2 := sendEmailAlert_sent s ok hsent
    have hs₂ : (sendEmailAlert s ok).2 = s₂ := by rw [h]
    rw [hs₂] at h2
    exact ⟨h2.2.1, h2.2.2⟩
  · induction oks generalizing s with
    | nil => exact Nat.zero_le _
    | cons hd rest ih =>
        unfold runAlerts
        cases hsent : (sendEmailAlert s hd).1 with
        | false =>
            rw [sendEmailAlert_not_sent s hd hsent]
            simpa using ih s
        | true =>
            have h2 := sendEmailAlert_sent s hd hsent
            have hrec := ih (sendEmailAlert s hd).2
            have hrate : rateOf (sendEmailAlert s hd).2 = rateOf s + 1 := by
              simp [rateOf, h2.2.1]
            rw [hrate] at hrec
            rw [Nat.min_eq_left (Nat.le_of_lt h2.1)]
            rw [Nat.min_eq_left h2.1] at hrec
            simp only [Bool.toNat_true]
            omega

/-- A fresh recipient state: no notifications preference stored and no
rate-limit counter. -/
def freshAlertState : AlertState :=
  { notificationsValue := none, rateCount := none, ttlSeconds := none }

/-- A recipient state whose counter has reached the hourly cap. -/
def cappedAlertState : AlertState :=
  { notificationsValue := none, rateCount := some 10, ttlSeconds := some 100 }

/-- C9 witness: at a stored counter of 10 the call sends nothing and
leaves the state unchanged, and 15 consecutive attempts against a fresh
recipient send at most 10 emails. -/
theorem sendEmailAlert_rate_limited_witness :
    sendEmailAlert cappedAlertState true = (false, cappedAlertState) ∧
    runAlerts freshAlertState (List.replicate 15 true) ≤ 10 :=
  ⟨(sendEmailAlert_rate_limited cappedAlertState true [] 10).1 rfl (by decide),
   (sendEmailAlert_rate_limited freshAlertState true (List.replicate 15 true) 0).2.2⟩

/-- JavaScript toLowerCase on the character sequence of a string. -/
def lowerStr (s : String) : String := String.mk (s.data.map Char.toLower)

/-- JavaScript String.prototype.trim: strip leading and trailing
whitespace. -/
def trimStr (s : String) : String :=
  String.mk
    (((s.data.dropWhile Char.isWhitespace).reverse.dropWhile Char.isWhitespace).reverse)

/-- JavaScript String.prototype.includes: contiguous substring test. -/
def containsStr (hay needle : String) : Bool := decide (needle.data <:+: hay.data)

/-- One entry of the imported stock-symbols.json data
(src/frontend/src/components/discover/discover-page.tsx, StockSymbol). -/
structure StockSymbol where
  symbol : String
  name : String
  sector : String
deriving DecidableEq, Repr

/-- The sector filter of filteredStocks (discover-page.tsx lines 77–81):
when the selection is not the literal string all, keep the stocks whose
sector equals the selection case-insensitively. -/
def bySector (stockSymbols : List StockSymbol) (selectedSector : String) :
    List StockSymbol :=
  if selectedSector ≠ "all" then
    stockSymbols.filter fun stock => lowerStr stock.sector == lowerStr selectedSector
  else stockSymbols

/-- The search filter of filteredStocks (discover-page.tsx lines 84–90):
when the trimmed query is non-empty, keep the stocks whose lowercased
symbol or name includes the lowercased (untrimmed) query. -/
def byQuery (l : List StockSymbol) (searchQuery : String) : List StockSymbol :=
  if trimStr searchQuery ≠ "" then
    l.filter fun stock =>
      containsStr (lowerStr stock.symbol) (lowerStr searchQuery) ||
      containsStr (lowerStr stock.name) (lowerStr searchQuery)
  else l

/-- filteredStocks (discover-page.tsx lines 73–93): sector filter, then
search filter, then slice(0, 50). -/
def filteredStocks (stockSymbols : List StockSymbol)
    (searchQuery selectedSector : String) : List StockSymbol :=
  (byQuery (bySector stockSymbols selectedSector) searchQuery).take 50

/-- Members of the sector-filtered list come from the input and match the
selected sector whenever one is active. -/
theorem mem_bySector (l : List StockSymbol) (selectedSector : String)
    (s : StockSymbol) (hm : s ∈ bySector l selectedSector) :
    s ∈ l ∧ (selectedSector ≠ "all" → lowerStr s.sector = lowerStr selectedSector) := by
  unfold bySector at hm
  by_cases h : selectedSector ≠ "all"
  · rw [if_pos h] at hm
    have := List.mem_filter.mp hm
    exact ⟨this.1, fun _ => by simpa using this.2⟩
  · rw [if_neg h] at hm
    exact ⟨hm, fun hcon => absurd hcon h⟩

/-- Members of the query-filtered list come from the input and match the
query whenever the trimmed query is non-empty. -/
theorem mem_byQuery (l : List StockSymbol) (searchQuery : String)
    (s : StockSymbol) (hm : s ∈ byQuery l searchQuery) :
    s ∈ l ∧ (trimStr searchQuery ≠ "" →
      (containsStr (lowerStr s.symbol) (lowerStr searchQuery) ||
       containsStr (lowerStr s.name) (lowerStr searchQuery)) = true) := by
  unfold byQuery at hm
  by_cases h : trimStr searchQuery ≠ ""
  · rw [if_pos h] at hm
    have := List.mem_filter.mp hm
    exact ⟨this.1, fun _ => this.2⟩
  · rw [if_neg h] at hm
    exact ⟨hm, fun hcon => absurd hcon h⟩

/-- C10: the discover-page filteredStocks result has at most 50 entries,
every entry comes from the imported stock list, and every entry satisfies
both active filters: its sector equals the selection case-insensitively
whenever the selection is not all, and its lowercased symbol or name
contains the lowercased query whenever the trimmed query is non-empty. -/
theorem filteredStocks_sound (stockSymbols : List StockSymbol)
    (searchQuery selectedSector : String) :
    (filteredStocks stockSymbols searchQuery selectedSector).length ≤ 50 ∧
    ∀ s ∈ filteredStocks stockSymbols searchQuery selectedSector,
      s ∈ stockSymbols ∧
      (selectedSector ≠ "all" → lowerStr s.sector = lowerStr selectedSector) ∧
      (trimStr searchQuery ≠ "" →
        (containsStr (lowerStr s.symbol) (lowerStr searchQuery) ||
         containsStr (lowerStr s.name) (lowerStr searchQuery)) = true) := by
  constructor
  · unfold filteredStocks
    rw [List.length_take]
    exact Nat.min_le_left _ _
  · intro s hs
    unfold filteredStocks at hs
    have hq := List.take_subset 50 _ hs
    have h1 := mem_byQuery _ searchQuery s hq
    have h2 := mem_bySector stockSymbols selectedSector s h1.1
    exact ⟨h2.1, h2.2, h1.2⟩

/-- A two-entry slice of the stock-symbols data. -/
def demoStocks : List StockSymbol :=
  [{ symbol := "AAPL", name := "Apple Inc.", sector := "Technology" },
   { symbol := "JPM", name := "JPMorgan Chase", sector := "Financial Services" }]

/-- The first demo entry. -/
def appleStock : StockSymbol :=
  { symbol := "AAPL", name := "Apple Inc.", sector := "Technology" }

/-- C10 witness: searching ap in sector Technology over the demo list
returns at most 50 entries, and the AAPL entry it contains matches both
active filters. -/
theorem filteredStocks_sound_witness :
    (filteredStocks demoStocks "ap" "Technology").length ≤ 50 ∧
    lowerStr appleStock.sector = lowerStr "Technology" ∧
    (containsStr (lowerStr appleStock.symbol) (lowerStr "ap") ||
     containsStr (lowerStr appleStock.name) (lowerStr "ap")) = true := by
  have h := filteredStocks_sound demoStocks "ap" "Technology"
  have hm := h.2 appleStock (by decide)
  exact ⟨h.1, hm.2.1 (by decide), hm.2.2 (by decide)⟩

end VUTAX
